import Mathlib

/-!
Verification of the tool-dispatch core and paginated API client of the
`scorable-mcp` server, as a shallow embedding in Lean 4.

The embedding translates the Python sources
`scorable_mcp/core.py`, `scorable_mcp/root_api_client.py`,
`scorable_mcp/schema.py`, `scorable_mcp/tools.py` and
`scorable_mcp/settings.py` into executable Lean definitions:

* JSON payloads are modelled by the inductive `Json` (JSON numbers are
  modelled as integers; no claim under consideration involves numeric
  arithmetic or float formatting).
* Python exceptions are modelled by `Except` results; distinct exception
  classes become distinct error constructors.
* Pydantic model construction / `model_validate` becomes an explicit
  validation function per model, faithful to each model's `model_config`
  (`extra`: forbid / ignore / allow, strict typing) and field validators.
* The stateful pagination loop becomes a structurally bounded recursion
  whose measure is the distance between the running total and the cap.
-/

set_option maxRecDepth 4096

/-- JSON values as returned by `response.json()` / passed as tool arguments.
Numbers are modelled as integers (see module comment); object fields keep
insertion order, and keys are unique in every payload produced by a real
JSON parser (lookups take the first match, which coincides with dict
semantics on such payloads). -/
inductive Json where
  | null : Json
  | bool (b : Bool) : Json
  | num (n : Int) : Json
  | str (s : String) : Json
  | arr (xs : List Json) : Json
  | obj (fields : List (String × Json)) : Json
deriving Repr

mutual

def Json.beq : Json → Json → Bool
  | .null, .null => true
  | .bool a, .bool b => a == b
  | .num a, .num b => a == b
  | .str a, .str b => a == b
  | .arr a, .arr b => Json.beqList a b
  | .obj a, .obj b => Json.beqFields a b
  | _, _ => false

def Json.beqList : List Json → List Json → Bool
  | [], [] => true
  | a :: as, b :: bs => Json.beq a b && Json.beqList as bs
  | _, _ => false

def Json.beqFields : List (String × Json) → List (String × Json) → Bool
  | [], [] => true
  | (ka, va) :: as, (kb, vb) :: bs => ka == kb && Json.beq va vb && Json.beqFields as bs
  | _, _ => false

end

mutual

theorem Json.beq_refl : (j : Json) → Json.beq j j = true
  | .null => rfl
  | .bool b => by simp [Json.beq]
  | .num n => by simp [Json.beq]
  | .str s => by simp [Json.beq]
  | .arr xs => by simp [Json.beq, Json.beqList_refl xs]
  | .obj fs => by simp [Json.beq, Json.beqFields_refl fs]

theorem Json.beqList_refl : (xs : List Json) → Json.beqList xs xs = true
  | [] => rfl
  | x :: xs => by simp [Json.beqList, Json.beq_refl x, Json.beqList_refl xs]

theorem Json.beqFields_refl : (fs : List (String × Json)) → Json.beqFields fs fs = true
  | [] => rfl
  | (k, v) :: fs => by simp [Json.beqFields, Json.beq_refl v, Json.beqFields_refl fs]

end

mutual

theorem Json.eq_of_beq : {a b : Json} → Json.beq a b = true → a = b
  | .null, .null, _ => rfl
  | .bool a, .bool b, h => by
      have hab : a = b := by simpa [Json.beq] using h
      rw [hab]
  | .num a, .num b, h => by
      have hab : a = b := by simpa [Json.beq] using h
      rw [hab]
  | .str a, .str b, h => by
      have hab : a = b := by simpa [Json.beq] using h
      rw [hab]
  | .arr as, .arr bs, h => congrArg Json.arr (Json.eqList_of_beq (by simpa [Json.beq] using h))
  | .obj as, .obj bs, h => congrArg Json.obj (Json.eqFields_of_beq (by simpa [Json.beq] using h))

theorem Json.eqList_of_beq : {as bs : List Json} → Json.beqList as bs = true → as = bs
  | [], [], _ => rfl
  | a :: as, b :: bs, h => by
      have h' : Json.beq a b = true ∧ Json.beqList as bs = true := by
        simpa [Json.beqList, Bool.and_eq_true] using h
      rw [Json.eq_of_beq h'.1, Json.eqList_of_beq h'.2]

theorem Json.eqFields_of_beq :
    {as bs : List (String × Json)} → Json.beqFields as bs = true → as = bs
  | [], [], _ => rfl
  | (ka, va) :: as, (kb, vb) :: bs, h => by
      have h' : (ka == kb) = true ∧ Json.beq va vb = true ∧ Json.beqFields as bs = true := by
        simpa [Json.beqFields, Bool.and_eq_true, and_assoc] using h
      have hk : ka = kb := by simpa using h'.1
      rw [hk, Json.eq_of_beq h'.2.1, Json.eqFields_of_beq h'.2.2]

end

instance : DecidableEq Json := fun a b =>
  if h : Json.beq a b = true then
    .isTrue (Json.eq_of_beq h)
  else
    .isFalse (fun he => h (he ▸ Json.beq_refl a))

deriving instance DecidableEq for Except

/-- Whether `p` is a prefix of `l` (structural model of Python
`str.startswith`, over character lists so that concrete instances reduce
in the kernel). -/
def startsWithL (l p : List Char) : Bool :=
  match p, l with
  | [], _ => true
  | _ :: _, [] => false
  | a :: ps, b :: ls => a == b && startsWithL ls ps

/-- Python `needle in haystack` on strings (structural; every use site
passes a non-empty needle). -/
def containsSub (l needle : List Char) : Bool :=
  if startsWithL l needle then true
  else
    match l with
    | [] => false
    | _ :: ls => containsSub ls needle

/-- The character-list remainder after the `n`-th `'/'`, i.e.
`"/".join(s.split("/")[n:])`; `none` when the string has fewer than `n`
slashes (where Python indexing raises `IndexError`). -/
def afterNthSlash : Nat → List Char → Option (List Char)
  | 0, l => some l
  | _ + 1, [] => none
  | n + 1, c :: ls => if c == '/' then afterNthSlash n ls else afterNthSlash (n + 1) ls

/-- Python `not v.strip()`: the string is empty or whitespace-only
(`str.strip()` strips whitespace; modelled by `Char.isWhitespace`). -/
def stripIsEmpty (s : String) : Bool :=
  s.data.all (fun c => c.isWhitespace)

/-- First-match field lookup in a JSON object, i.e. Python `d[k]` / `d.get(k)`
on the parsed dict (keys are unique in parsed JSON). -/
def lookupField (fields : List (String × Json)) (k : String) : Option Json :=
  (fields.find? (fun kv => kv.1 = k)).map (fun kv => kv.2)

/-- Python truthiness of a JSON value (`bool(x)` for values produced by
`response.json()`). -/
def pyTruthy : Json → Bool
  | .null => false
  | .bool b => b
  | .num n => n ≠ 0
  | .str s => s ≠ ""
  | .arr xs => xs ≠ []
  | .obj fs => fs ≠ []

/-- Python `type(x).__name__` for a parsed-JSON value. -/
def pyTypeName : Json → String
  | .null => "NoneType"
  | .bool _ => "bool"
  | .num _ => "int"
  | .str _ => "str"
  | .arr _ => "list"
  | .obj _ => "dict"

mutual

/-- Python `str(x)` (= `repr(x)`) of a parsed-JSON value, as used by
`str(error_data)` in `_make_request`.  String escaping of special
characters inside the repr is not modelled; every payload this
development evaluates it on contains none. -/
def pyRepr : Json → String
  | .null => "None"
  | .bool true => "True"
  | .bool false => "False"
  | .num n => toString n
  | .str s => "\x27" ++ s ++ "\x27"
  | .arr xs => "[" ++ String.intercalate ", " (pyReprList xs) ++ "]"
  | .obj fs => "\x7b" ++ String.intercalate ", " (pyReprFields fs) ++ "\x7d"

def pyReprList : List Json → List String
  | [] => []
  | x :: xs => pyRepr x :: pyReprList xs

def pyReprFields : List (String × Json) → List String
  | [] => []
  | (k, v) :: fs => ("\x27" ++ k ++ "\x27: " ++ pyRepr v) :: pyReprFields fs

end

/-- JSON string escaping shared by `json.dumps` and pydantic's
`model_dump_json` (quotes, backslashes and newlines; other control
characters are not modelled and never occur in evaluated payloads). -/
def jsonEscape (s : String) : String :=
  s.data.foldl
    (fun acc c =>
      if c = '"' then acc ++ "\\\""
      else if c = '\\' then acc ++ "\\\\"
      else if c = '\n' then acc ++ "\\n"
      else acc.push c)
    ""

mutual

/-- JSON rendering.  `spaced = true` models `json.dumps` default separators
`(", ", ": ")`; `spaced = false` models pydantic `model_dump_json`
compact separators `(",", ":")`. -/
def renderJson (spaced : Bool) : Json → String
  | .null => "null"
  | .bool true => "true"
  | .bool false => "false"
  | .num n => toString n
  | .str s => "\"" ++ jsonEscape s ++ "\""
  | .arr xs =>
      "[" ++ String.intercalate (if spaced then ", " else ",") (renderJsonList spaced xs) ++ "]"
  | .obj fs =>
      "\x7b" ++
        String.intercalate (if spaced then ", " else ",") (renderJsonFields spaced fs) ++ "\x7d"

def renderJsonList (spaced : Bool) : List Json → List String
  | [] => []
  | x :: xs => renderJson spaced x :: renderJsonList spaced xs

def renderJsonFields (spaced : Bool) : List (String × Json) → List String
  | [] => []
  | (k, v) :: fs =>
      ("\"" ++ jsonEscape k ++ "\"" ++ (if spaced then ": " else ":") ++ renderJson spaced v) ::
        renderJsonFields spaced fs

end

/-- `json.dumps(x)` with default arguments. -/
def pyDumps (j : Json) : String := renderJson true j

/-! ## Error model

Python exception classes of the source, as Lean error values:
`ValError` stands for one reported entry of a pydantic `ValidationError`
(the source lets pydantic aggregate several; this embedding reports the
first in field-declaration order, which is all any claim needs), and
`ScorableAPIError` / `ResponseValidationError` mirror
`root_api_client.py`.  Uncaught builtin Python exceptions that some raw
payload shapes would trigger are modelled by dedicated constructors. -/

structure ValError where
  field : String
  msg : String
deriving DecidableEq, Repr

/-- Models `str(exc)` of a pydantic `ValidationError` abstractly (the
source only ever embeds that text into a larger message, no claim pins
its exact form). -/
def renderValError (e : ValError) : String := e.field ++ ": " ++ e.msg

/-- `ScorableAPIError(status_code, detail)`.  `detail` is a `Json` value
because `error_data.get("detail", str(error_data))` can hand the
constructor an arbitrary decoded value. -/
structure ScorableAPIError where
  status_code : Nat
  detail : Json
deriving DecidableEq, Repr

/-- Failure outcomes of the repository client:
`api` is a raised `ScorableAPIError`, `validation` a raised
`ResponseValidationError(message, response_data)`; the remaining
constructors model uncaught builtin exceptions (`TypeError`,
`AttributeError`, `IndexError`, and an uncaught pydantic
`ValidationError` escaping a `model_validate`/constructor call). -/
inductive FetchError where
  | api (e : ScorableAPIError)
  | validation (msg : String) (data : Json)
  | typeError
  | attributeError
  | indexError
  | modelError (e : ValError)
  | jsonDecodeError
deriving DecidableEq, Repr

/-! ## Response models (`schema.py`, API-facing, `BaseScorableModel`:
`extra = "ignore"`, `strict = True`)

Each pydantic model becomes a structure plus a `validate` function from
`Json`; fields keep the source names, except that the source field
`type` (a Lean keyword) is embedded as `ty`. -/

structure ArrayInputItem where
  ty : String
deriving DecidableEq, Repr

structure RequiredInput where
  ty : String
  items : Option ArrayInputItem
deriving DecidableEq, Repr

structure EvaluatorInfo where
  name : String
  id : String
  created_at : String
  intent : Option String
  inputs : List (String × RequiredInput)
deriving DecidableEq, Repr

structure NestedEvaluatorInfo where
  name : String
  id : String
  intent : Option String
deriving DecidableEq, Repr

structure JudgeInfo where
  name : String
  id : String
  created_at : String
  evaluators : List NestedEvaluatorInfo
  description : Option String
deriving DecidableEq, Repr

structure EvaluationResponse where
  evaluator_name : String
  score : Int
  justification : Option String
  execution_log_id : Option String
  cost : Option Int
deriving DecidableEq, Repr

structure JudgeEvaluatorResult where
  evaluator_name : String
  score : Int
  justification : String
deriving DecidableEq, Repr

structure RunJudgeResponse where
  evaluator_results : List JudgeEvaluatorResult
deriving DecidableEq, Repr

structure EvaluatorsListResponse where
  evaluators : List EvaluatorInfo
deriving DecidableEq, Repr

structure JudgesListResponse where
  judges : List JudgeInfo
deriving DecidableEq, Repr

/-- Required `str` field of a strict pydantic model. -/
def vStr (fields : List (String × Json)) (k : String) : Except ValError String :=
  match lookupField fields k with
  | some (.str s) => .ok s
  | some _ => .error ⟨k, "Input should be a valid string"⟩
  | none => .error ⟨k, "Field required"⟩

/-- Optional `str | None = None` field of a strict pydantic model. -/
def vOptStr (fields : List (String × Json)) (k : String) : Except ValError (Option String) :=
  match lookupField fields k with
  | none => .ok none
  | some .null => .ok none
  | some (.str s) => .ok (some s)
  | some _ => .error ⟨k, "Input should be a valid string"⟩

/-- Required numeric field (`float`; JSON numbers modelled as `Int`). -/
def vNum (fields : List (String × Json)) (k : String) : Except ValError Int :=
  match lookupField fields k with
  | some (.num n) => .ok n
  | some _ => .error ⟨k, "Input should be a valid number"⟩
  | none => .error ⟨k, "Field required"⟩

/-- Optional numeric field (`float | int | None = None`). -/
def vOptNum (fields : List (String × Json)) (k : String) : Except ValError (Option Int) :=
  match lookupField fields k with
  | none => .ok none
  | some .null => .ok none
  | some (.num n) => .ok (some n)
  | some _ => .error ⟨k, "Input should be a valid number"⟩

/-- `EvaluationResponse.model_validate` (extra fields ignored, the five
declared fields parsed strictly). -/
def EvaluationResponse.validate (j : Json) : Except ValError EvaluationResponse :=
  match j with
  | .obj fields => do
      let n ← vStr fields "evaluator_name"
      let s ← vNum fields "score"
      let ju ← vOptStr fields "justification"
      let el ← vOptStr fields "execution_log_id"
      let c ← vOptNum fields "cost"
      pure ⟨n, s, ju, el, c⟩
  | _ => .error ⟨"", "Input should be an object"⟩

/-- `JudgeInfo.NestedEvaluatorInfo.model_validate`; `intent` has default
`""` and type `str | None`. -/
def NestedEvaluatorInfo.validate (j : Json) : Except ValError NestedEvaluatorInfo :=
  match j with
  | .obj fields => do
      let n ← vStr fields "name"
      let i ← vStr fields "id"
      let intent ←
        match lookupField fields "intent" with
        | none => .ok (some "")
        | some .null => .ok (none : Option String)
        | some (.str s) => .ok (some s)
        | some _ => .error (⟨"intent", "Input should be a valid string"⟩ : ValError)
      pure ⟨n, i, intent⟩
  | _ => .error ⟨"", "Input should be an object"⟩

/-- `JudgeEvaluatorResult.model_validate` (`justification` is required
here, unlike in `EvaluationResponse`). -/
def JudgeEvaluatorResult.validate (j : Json) : Except ValError JudgeEvaluatorResult :=
  match j with
  | .obj fields => do
      let n ← vStr fields "evaluator_name"
      let s ← vNum fields "score"
      let ju ← vStr fields "justification"
      pure ⟨n, s, ju⟩
  | _ => .error ⟨"", "Input should be an object"⟩

/-- `RunJudgeResponse.model_validate`. -/
def RunJudgeResponse.validate (j : Json) : Except ValError RunJudgeResponse :=
  match j with
  | .obj fields =>
      match lookupField fields "evaluator_results" with
      | some (.arr xs) => do
          let rs ← xs.mapM JudgeEvaluatorResult.validate
          pure ⟨rs⟩
      | some _ => .error ⟨"evaluator_results", "Input should be a valid list"⟩
      | none => .error ⟨"evaluator_results", "Field required"⟩
  | _ => .error ⟨"", "Input should be an object"⟩

/-- Validation of one value of the `inputs` mapping of `EvaluatorInfo`
(`RequiredInput`: `type : str`, `items : ArrayInputItem | None`; extra
keys ignored). -/
def RequiredInput.validate (j : Json) : Except ValError RequiredInput :=
  match j with
  | .obj fields => do
      let t ← vStr fields "type"
      let it ←
        match lookupField fields "items" with
        | none => .ok (none : Option ArrayInputItem)
        | some .null => .ok (none : Option ArrayInputItem)
        | some (.obj ifields) =>
            (match lookupField ifields "type" with
             | some (.str ts) => .ok (some (⟨ts⟩ : ArrayInputItem))
             | some _ => .error (⟨"items.type", "Input should be a valid string"⟩ : ValError)
             | none => .error (⟨"items.type", "Field required"⟩ : ValError))
        | some _ => .error (⟨"items", "Input should be an object"⟩ : ValError)
      pure ⟨t, it⟩
  | _ => .error ⟨"", "Input should be an object"⟩

/-- Validation of the `inputs : dict[str, RequiredInput]` field of
`EvaluatorInfo`. -/
def validateInputs (j : Json) : Except ValError (List (String × RequiredInput)) :=
  match j with
  | .obj fields =>
      fields.mapM (fun kv => do
        let ri ← RequiredInput.validate kv.2
        pure (kv.1, ri))
  | _ => .error ⟨"inputs", "Input should be an object"⟩

/-! ## Request (argument) models (`schema.py`, caller-facing)

Tool arguments arrive as a keyword mapping, modelled as an association
list with unique keys (Python `dict`).  `BaseToolRequest` models use
`extra = "forbid"`; `BaseEvaluationRequest` and its two variants inherit
`BaseScorableModel`'s `extra = "ignore"`; `UnknownToolRequest` uses
`extra = "allow"`. -/

structure ListEvaluatorsRequest where
deriving DecidableEq, Repr

structure ListJudgesRequest where
deriving DecidableEq, Repr

structure EvaluationRequest where
  request : String
  response : String
  contexts : Option (List String)
  expected_output : Option String
  evaluator_id : String
deriving DecidableEq, Repr

structure EvaluationRequestByName where
  request : String
  response : String
  contexts : Option (List String)
  expected_output : Option String
  evaluator_name : String
deriving DecidableEq, Repr

structure CodingPolicyAdherenceEvaluationRequest where
  policy_documents : List String
  code : String
deriving DecidableEq, Repr

structure RunJudgeRequest where
  judge_id : String
  judge_name : String
  request : String
  response : String
deriving DecidableEq, Repr

/-- Required `str` argument field. -/
def aStr (args : List (String × Json)) (k : String) : Except ValError String :=
  vStr args k

/-- Required `str` argument field carrying a non-emptiness
`field_validator` that raises `ValueError(emptyMsg)` when the stripped
value is empty (`str.strip` modelled by `String.trim`). -/
def aNonEmptyStr (args : List (String × Json)) (k emptyMsg : String) :
    Except ValError String := do
  let s ← vStr args k
  if stripIsEmpty s then .error ⟨k, emptyMsg⟩ else pure s

/-- `str` argument field with a declared default (used by `judge_name`,
default `"-"`; `None` is not accepted, the field is not `Optional`). -/
def aStrDefault (args : List (String × Json)) (k dflt : String) : Except ValError String :=
  match lookupField args k with
  | none => .ok dflt
  | some (.str s) => .ok s
  | some _ => .error ⟨k, "Input should be a valid string"⟩

/-- Optional `list[str] | None = None` argument field. -/
def aOptStrList (args : List (String × Json)) (k : String) :
    Except ValError (Option (List String)) :=
  match lookupField args k with
  | none => .ok none
  | some .null => .ok none
  | some (.arr xs) => do
      let ss ← xs.mapM (fun x =>
        match x with
        | .str s => .ok s
        | _ => .error (⟨k, "Input should be a valid string"⟩ : ValError))
      pure (some ss)
  | some _ => .error ⟨k, "Input should be a valid list"⟩

/-- Required `list[str]` argument field. -/
def aStrList (args : List (String × Json)) (k : String) :
    Except ValError (List String) :=
  match lookupField args k with
  | none => .error ⟨k, "Field required"⟩
  | some (.arr xs) =>
      xs.mapM (fun x =>
        match x with
        | .str s => .ok s
        | _ => .error (⟨k, "Input should be a valid string"⟩ : ValError))
  | some _ => .error ⟨k, "Input should be a valid list"⟩

/-- `extra = "forbid"`: any argument key outside `declared` is rejected. -/
def forbidExtras (args : List (String × Json)) (declared : List String) :
    Except ValError Unit :=
  match args.find? (fun kv => !(declared.contains kv.1)) with
  | some kv => .error ⟨kv.1, "Extra inputs are not permitted"⟩
  | none => .ok ()

/-- `ListEvaluatorsRequest(**args)`: no declared fields, extras forbidden. -/
def ListEvaluatorsRequest.validateArgs (args : List (String × Json)) :
    Except ValError ListEvaluatorsRequest := do
  forbidExtras args []
  pure ⟨⟩

/-- `ListJudgesRequest(**args)`: no declared fields, extras forbidden. -/
def ListJudgesRequest.validateArgs (args : List (String × Json)) :
    Except ValError ListJudgesRequest := do
  forbidExtras args []
  pure ⟨⟩

/-- `EvaluationRequest(**args)`: inherits `extra = "ignore"` from
`BaseScorableModel` (unknown keys are dropped, not rejected); `request`
and `response` carry the base `validate_not_empty` validator. -/
def EvaluationRequest.validateArgs (args : List (String × Json)) :
    Except ValError EvaluationRequest := do
  let req ← aNonEmptyStr args "request" "Field cannot be empty"
  let resp ← aNonEmptyStr args "response" "Field cannot be empty"
  let ctx ← aOptStrList args "contexts"
  let exp ← vOptStr args "expected_output"
  let eid ← aStr args "evaluator_id"
  pure ⟨req, resp, ctx, exp, eid⟩

/-- `EvaluationRequestByName(**args)`: like `EvaluationRequest` but keyed
by `evaluator_name`; the inherited `validate_not_empty` fires before the
subclass validators on whitespace-only input, so the reported message is
the base one. -/
def EvaluationRequestByName.validateArgs (args : List (String × Json)) :
    Except ValError EvaluationRequestByName := do
  let req ← aNonEmptyStr args "request" "Field cannot be empty"
  let resp ← aNonEmptyStr args "response" "Field cannot be empty"
  let ctx ← aOptStrList args "contexts"
  let exp ← vOptStr args "expected_output"
  let en ← aStr args "evaluator_name"
  pure ⟨req, resp, ctx, exp, en⟩

/-- `CodingPolicyAdherenceEvaluationRequest(**args)`: extras forbidden,
no non-emptiness validators. -/
def CodingPolicyAdherenceEvaluationRequest.validateArgs
    (args : List (String × Json)) :
    Except ValError CodingPolicyAdherenceEvaluationRequest := do
  let pd ← aStrList args "policy_documents"
  let c ← aStr args "code"
  forbidExtras args ["policy_documents", "code"]
  pure ⟨pd, c⟩

/-- `RunJudgeRequest(**args)`: extras forbidden; `judge_name` defaults to
`"-"`; `request`/`response` carry their own non-emptiness validators. -/
def RunJudgeRequest.validateArgs (args : List (String × Json)) :
    Except ValError RunJudgeRequest := do
  let jid ← aStr args "judge_id"
  let jname ← aStrDefault args "judge_name" "-"
  let req ← aNonEmptyStr args "request" "Request cannot be empty"
  let resp ← aNonEmptyStr args "response" "Response cannot be empty"
  forbidExtras args ["judge_id", "judge_name", "request", "response"]
  pure ⟨jid, jname, req, resp⟩

/-! ## Tool catalogue (`tools.py`) and request-model resolution -/

/-- The per-tool request model classes known to `get_request_model`,
plus the permissive `UnknownToolRequest` fallback. -/
inductive ToolModel where
  | listEvaluatorsRequest
  | listJudgesRequest
  | codingPolicyRequest
  | evaluationRequestByName
  | evaluationRequest
  | runJudgeRequest
  | unknownToolRequest
deriving DecidableEq, Repr

/-- `tools.get_request_model`: the name → request-model mapping. -/
def get_request_model (name : String) : Option ToolModel :=
  if name = "list_evaluators" then some .listEvaluatorsRequest
  else if name = "list_judges" then some .listJudgesRequest
  else if name = "run_coding_policy_adherence" then some .codingPolicyRequest
  else if name = "run_evaluation_by_name" then some .evaluationRequestByName
  else if name = "run_evaluation" then some .evaluationRequest
  else if name = "run_judge" then some .runJudgeRequest
  else none

/-- A validated request value, i.e. the successfully constructed
`model_cls(**arguments)` instance in `call_tool`. -/
inductive ValidatedRequest where
  | listEvaluators (r : ListEvaluatorsRequest)
  | listJudges (r : ListJudgesRequest)
  | codingPolicy (r : CodingPolicyAdherenceEvaluationRequest)
  | evalByName (r : EvaluationRequestByName)
  | evalById (r : EvaluationRequest)
  | runJudge (r : RunJudgeRequest)
  | unknown (args : List (String × Json))
deriving DecidableEq, Repr

/-- `model_cls(**arguments)` for the resolved model class.
`UnknownToolRequest` (`extra = "allow"`) accepts and retains every
argument. -/
def validateArgs (m : ToolModel) (args : List (String × Json)) :
    Except ValError ValidatedRequest :=
  match m with
  | .listEvaluatorsRequest => (ListEvaluatorsRequest.validateArgs args).map .listEvaluators
  | .listJudgesRequest => (ListJudgesRequest.validateArgs args).map .listJudges
  | .codingPolicyRequest =>
      (CodingPolicyAdherenceEvaluationRequest.validateArgs args).map .codingPolicy
  | .evaluationRequestByName => (EvaluationRequestByName.validateArgs args).map .evalByName
  | .evaluationRequest => (EvaluationRequest.validateArgs args).map .evalById
  | .runJudgeRequest => (RunJudgeRequest.validateArgs args).map .runJudge
  | .unknownToolRequest => .ok (.unknown args)

/-! ## HTTP layer (`root_api_client.py`, `_make_request`) -/

/-- One outbound HTTP exchange as the transport presents it to
`_make_request`: a delivered response carries its status code, the raw
body text, and the result of `response.json()` on that body (`none`
when the body is not valid JSON); `requestError` is a raised
`httpx.RequestError` with its message. -/
inductive TransportOutcome where
  | response (status : Nat) (rawText : String) (parsed : Option Json)
  | requestError (msg : String)
deriving DecidableEq, Repr

/-- `ScorableRepositoryBase._make_request`, given the transport's outcome
for the issued request.  On status ≥ 400 the error message is the JSON
body's `detail` value when the body parses to a dict containing one,
else `str(error_data)` of the parsed dict, else (body unparseable or not
a dict, so `error_data.get` raises) the raw body text when non-empty,
else `"HTTP <status>"`.  A 204 returns `{}`; a transport failure raises
`ScorableAPIError(0, "Connection error: ...")`; `.jsonDecodeError` is the
(uncaught) `response.json()` failure on a successful non-204 status. -/
def make_request (outcome : TransportOutcome) : Except FetchError Json :=
  match outcome with
  | .requestError msg => .error (.api ⟨0, .str ("Connection error: " ++ msg)⟩)
  | .response status rawText parsed =>
      if status ≥ 400 then
        let errMsg : Json :=
          match parsed with
          | some (.obj fields) =>
              match lookupField fields "detail" with
              | some v => v
              | none => .str (pyRepr (.obj fields))
          | _ => .str (if rawText ≠ "" then rawText else "HTTP " ++ toString status)
        .error (.api ⟨status, errMsg⟩)
      else if status = 204 then .ok (.obj [])
      else
        match parsed with
        | some j => .ok j
        | none => .error .jsonDecodeError

/-! ## Pagination (`root_api_client.py`, `_fetch_paginated_results`) -/

/-- Python `needle in haystack` for strings (needle non-empty at every
use site). -/
def strContains (hay needle : String) : Bool :=
  containsSub hay.data needle.data

/-- The cursor-normalisation step of the pagination loop:
`next_page_url = "/" + next_page_url.split("/", 3)[3]` when the cursor
starts with `"http"`; the indexing raises `IndexError` when the URL has
fewer than three slashes.  (`split("/", 3)` caps the number of splits at
three, so its last element is the unsplit remainder, i.e. the full split
re-joined from its fourth part on.) -/
def stripSchemeHost (u : String) : Except FetchError String :=
  if startsWithL u.data "http".data then
    match afterNthSlash 3 u.data with
    | some rest => .ok ("/" ++ String.mk rest)
    | none => .error .indexError
  else .ok u

/-- The `# Preserve any specified URL parameters` block: for each caller
parameter with a non-`None` value not already present (as `"<name>="`)
in the truthy continuation URL, re-append it with `?` or `&`.  The
`next` cursor value is dynamically typed in the source; a truthy
non-string cursor makes the substring test raise `TypeError`. -/
def preserveUrlParams (next : Json) (url_params : List (String × Option String)) :
    Except FetchError Json :=
  if pyTruthy next && !url_params.isEmpty then
    url_params.foldlM
      (fun u pv =>
        match pv.2 with
        | none => .ok u
        | some v =>
            match u with
            | .str s =>
                if strContains s (pv.1 ++ "=") then .ok (.str s)
                else if s.data.contains '?' then .ok (.str (s ++ "&" ++ pv.1 ++ "=" ++ v))
                else .ok (.str (s ++ "?" ++ pv.1 ++ "=" ++ v))
            | _ => .error .typeError)
      next
  else .ok next

/-- One page-response of the pagination loop: a dict yields its `next`
cursor (default `""`), the caller parameters are re-appended to it, and
its `results` list is required; a bare list is the final page (the
continuation cursor becomes `""`); anything else raises
`ResponseValidationError` naming the unexpected type. -/
def processPage (url_params : List (String × Option String)) (response : Json) :
    Except FetchError (List Json × Json) :=
  match response with
  | .obj fields => do
      let nextRaw := (lookupField fields "next").getD (.str "")
      let next ← preserveUrlParams nextRaw url_params
      match lookupField fields "results" with
      | some (.arr xs) => pure (xs, next)
      | _ => .error (.validation "Could not find \x27results\x27 field in response" response)
  | .arr xs => .ok (xs, .str "")
  | other =>
      .error (.validation
        ("Expected response to be a dict or list, got " ++ pyTypeName other) other)

/-- The `while next_page_url and len(items_raw) < max_to_fetch` loop of
`_fetch_paginated_results`.  The loop variable `next_page_url` is
dynamically typed (a truthy non-string cursor makes
`next_page_url.startswith` raise `AttributeError`); an empty page breaks
the loop.  Termination: every iteration that recurses appends at least
one item while the running total is below the cap. -/
def fetchLoopAux (transport : String → TransportOutcome)
    (url_params : List (String × Option String)) (max_to_fetch : Nat)
    (items_raw : List Json) (next_page_url : Json) :
    Except FetchError (List Json) :=
  if hc : pyTruthy next_page_url = true ∧ items_raw.length < max_to_fetch then
    match next_page_url with
    | .str u =>
        match stripSchemeHost u with
        | .error e => .error e
        | .ok path =>
            match make_request (transport path) with
            | .error e => .error e
            | .ok response =>
                match processPage url_params response with
                | .error e => .error e
                | .ok (page_items, next) =>
                    if hp : page_items = [] then .ok (items_raw ++ page_items)
                    else fetchLoopAux transport url_params max_to_fetch
                      (items_raw ++ page_items) next
    | _ => .error .attributeError
  else .ok items_raw
termination_by max_to_fetch - items_raw.length
decreasing_by
  simp only [List.length_append]
  have h1 : items_raw.length < max_to_fetch := hc.2
  have h2 : 0 < page_items.length := List.length_pos.mpr hp
  omega

/-- `_fetch_paginated_results(initial_url, max_to_fetch, resource_type,
url_params)`.  `resource_type` only feeds log lines and is not modelled.
After the loop, a running total exceeding the cap is trimmed to exactly
`max_to_fetch` items. -/
def fetch_paginated_results (transport : String → TransportOutcome)
    (initial_url : String) (max_to_fetch : Nat)
    (url_params : List (String × Option String)) :
    Except FetchError (List Json) :=
  match fetchLoopAux transport url_params max_to_fetch [] (.str initial_url) with
  | .error e => .error e
  | .ok items =>
      .ok (if items.length > max_to_fetch then items.take max_to_fetch else items)

/-! ## Record decoding (`list_evaluators` / `list_judges` loop bodies) -/

/-- Python subscript/`KeyError` model for `data["key"]`. -/
inductive PyAccessError where
  | keyError (k : String)
  | typeError
deriving DecidableEq, Repr

/-- `d[k]` on a parsed-JSON value: `KeyError` on a dict without the key,
`TypeError` on a non-dict. -/
def pyGetItem (d : Json) (k : String) : Except PyAccessError Json :=
  match d with
  | .obj fields =>
      match lookupField fields k with
      | some v => .ok v
      | none => .error (.keyError k)
  | _ => .error .typeError

/-- The per-record decoding step of `list_evaluators` (the body of its
`for` loop at index `i`).  The bracket accesses `["id"]`, `["name"]`,
`["created_at"]`, `["inputs"]` may raise `KeyError`, which the source
catches and rewraps as a `ResponseValidationError` naming the index and
the missing field.  The `isinstance(created_at, datetime)` branch is
dead for parsed-JSON input (`response.json()` never yields `datetime`)
and is not modelled.  `intent` comes from `objective.get("intent")`
when `objective` is a dict.  Constructing `EvaluatorInfo(...)` validates
field types strictly; its pydantic failure is not a `KeyError` and
escapes the `try` uncaught (`.modelError`). -/
def decodeEvaluatorRecord (i : Nat) (d : Json) : Except FetchError EvaluatorInfo :=
  let raw : Except PyAccessError (Json × Json × Json × Option Json × Json) := do
    let idv ← pyGetItem d "id"
    let nv ← pyGetItem d "name"
    let cv ← pyGetItem d "created_at"
    let intentv :=
      match d with
      | .obj fields =>
          match lookupField fields "objective" with
          | some (.obj ofields) => lookupField ofields "intent"
          | _ => none
      | _ => none
    let iv ← pyGetItem d "inputs"
    pure (idv, nv, cv, intentv, iv)
  match raw with
  | .error (.keyError k) =>
      .error (.validation
        ("Evaluator at index " ++ toString i ++ " missing required field: \x27" ++ k ++ "\x27") d)
  | .error .typeError => .error .typeError
  | .ok (idv, nv, cv, intentv, iv) =>
      match idv, nv, cv with
      | .str ids, .str ns, .str cs => do
          let intent ←
            match intentv with
            | none => Except.ok (none : Option String)
            | some .null => Except.ok (none : Option String)
            | some (.str s) => Except.ok (some s)
            | some _ =>
                Except.error (FetchError.modelError ⟨"intent", "Input should be a valid string"⟩)
          let inputs ←
            match validateInputs iv with
            | .ok l => Except.ok l
            | .error e => Except.error (FetchError.modelError e)
          Except.ok ⟨ns, ids, cs, intent, inputs⟩
      | _, _, _ =>
          .error (.modelError ⟨"", "Input should be a valid string"⟩)

/-- The decoding `for` loop of `list_evaluators` starting at index `i`:
the first failing record aborts the whole collection. -/
def decodeEvaluatorsFrom (i : Nat) : List Json → Except FetchError (List EvaluatorInfo)
  | [] => .ok []
  | d :: rest => do
      let e ← decodeEvaluatorRecord i d
      let es ← decodeEvaluatorsFrom (i + 1) rest
      pure (e :: es)

/-- The decoding loop of `list_evaluators` over the fetched raw records. -/
def decodeEvaluators (raws : List Json) : Except FetchError (List EvaluatorInfo) :=
  decodeEvaluatorsFrom 0 raws

/-- The per-record decoding step of `list_judges` (the body of its `for`
loop at index `i`).  Required bracket accesses: `id`, `name`,
`created_at` (a `KeyError` is rewrapped naming index and field);
`description` is populated from `judge_data.get("intent")` — the raw
`description` key is never read; `evaluators` iterates
`judge_data.get("evaluators", [])`, validating each element as a
`NestedEvaluatorInfo` (an uncaught pydantic failure there or in the
final `JudgeInfo(...)` construction is `.modelError`; iterating a
non-empty string/dict feeds non-dict elements to `model_validate`, and
iterating a non-iterable raises `TypeError`). -/
def decodeJudgeRecord (i : Nat) (d : Json) : Except FetchError JudgeInfo :=
  let raw : Except PyAccessError (Json × Json × Json) := do
    let idv ← pyGetItem d "id"
    let nv ← pyGetItem d "name"
    let cv ← pyGetItem d "created_at"
    pure (idv, nv, cv)
  match raw with
  | .error (.keyError k) =>
      .error (.validation
        ("Judge at index " ++ toString i ++ " missing required field: \x27" ++ k ++ "\x27") d)
  | .error .typeError => .error .typeError
  | .ok (idv, nv, cv) =>
      let descv :=
        match d with
        | .obj fields => lookupField fields "intent"
        | _ => none
      let evsv :=
        match d with
        | .obj fields => lookupField fields "evaluators"
        | _ => none
      do
        let evaluators ←
          match evsv with
          | none => Except.ok ([] : List NestedEvaluatorInfo)
          | some (.arr xs) =>
              xs.mapM (fun x =>
                match NestedEvaluatorInfo.validate x with
                | .ok v => Except.ok v
                | .error e => Except.error (FetchError.modelError e))
          | some (.str s) =>
              if s = "" then Except.ok ([] : List NestedEvaluatorInfo)
              else Except.error (FetchError.modelError ⟨"", "Input should be an object"⟩)
          | some (.obj fs) =>
              if fs = [] then Except.ok ([] : List NestedEvaluatorInfo)
              else Except.error (FetchError.modelError ⟨"", "Input should be an object"⟩)
          | some _ => Except.error FetchError.typeError
        match nv, idv, cv with
        | .str ns, .str ids, .str cs => do
            let description ←
              match descv with
              | none => Except.ok (none : Option String)
              | some .null => Except.ok (none : Option String)
              | some (.str s) => Except.ok (some s)
              | some _ =>
                  Except.error
                    (FetchError.modelError ⟨"description", "Input should be a valid string"⟩)
            Except.ok ⟨ns, ids, cs, evaluators, description⟩
        | _, _, _ =>
            Except.error (FetchError.modelError ⟨"", "Input should be a valid string"⟩)

/-- The decoding `for` loop of `list_judges` starting at index `i`. -/
def decodeJudgesFrom (i : Nat) : List Json → Except FetchError (List JudgeInfo)
  | [] => .ok []
  | d :: rest => do
      let j ← decodeJudgeRecord i d
      let js ← decodeJudgesFrom (i + 1) rest
      pure (j :: js)

/-- The decoding loop of `list_judges` over the fetched raw records. -/
def decodeJudges (raws : List Json) : Except FetchError (List JudgeInfo) :=
  decodeJudgesFrom 0 raws

/-! ## Execute-result decoding (`run_evaluator` / `run_judge`) -/

/-- The decode step of `run_evaluator` and `run_evaluator_by_name`: a
top-level `result` envelope, when the body is a dict carrying one, is
unwrapped before validating `EvaluationResponse`; a validation failure
is rewrapped as `ResponseValidationError` with the raw payload
attached. -/
def runEvaluatorDecode (response_data : Json) : Except FetchError EvaluationResponse :=
  let result_data :=
    match response_data with
    | .obj fields => (lookupField fields "result").getD response_data
    | _ => response_data
  match EvaluationResponse.validate result_data with
  | .ok r => .ok r
  | .error e =>
      .error (.validation ("Invalid evaluation response format: " ++ renderValError e)
        response_data)

/-- The decode step of `run_judge`: the whole response body is validated
directly as a `RunJudgeResponse` — no `result` envelope unwrapping. -/
def runJudgeDecode (result : Json) : Except FetchError RunJudgeResponse :=
  match RunJudgeResponse.validate result with
  | .ok r => .ok r
  | .error e =>
      .error (.validation ("Invalid judge response format: " ++ renderValError e) result)

/-! ## Result serialization (`model_dump_json(exclude_none=True)`)

Each response model serializes its fields in declaration order, omitting
fields whose value is `None`. -/

/-- `EvaluatorInfo` dump (fields `name, id, created_at, intent, inputs`;
`intent` omitted when `None`; each `RequiredInput` omits `items` when
`None`). -/
def EvaluatorInfo.dump (e : EvaluatorInfo) : Json :=
  .obj ([("name", .str e.name), ("id", .str e.id), ("created_at", .str e.created_at)] ++
    (match e.intent with
     | none => []
     | some s => [("intent", Json.str s)]) ++
    [("inputs", .obj (e.inputs.map (fun kv =>
      (kv.1, Json.obj ([("type", Json.str kv.2.ty)] ++
        (match kv.2.items with
         | none => []
         | some it => [("items", Json.obj [("type", Json.str it.ty)])]))))))])

/-- `JudgeInfo.NestedEvaluatorInfo` dump (`intent` omitted when `None`). -/
def NestedEvaluatorInfo.dump (e : NestedEvaluatorInfo) : Json :=
  .obj ([("name", .str e.name), ("id", .str e.id)] ++
    (match e.intent with
     | none => []
     | some s => [("intent", Json.str s)]))

/-- `JudgeInfo` dump (fields `name, id, created_at, evaluators,
description`; `description` omitted when `None`). -/
def JudgeInfo.dump (j : JudgeInfo) : Json :=
  .obj ([("name", .str j.name), ("id", .str j.id), ("created_at", .str j.created_at),
    ("evaluators", .arr (j.evaluators.map NestedEvaluatorInfo.dump))] ++
    (match j.description with
     | none => []
     | some s => [("description", Json.str s)]))

/-- `EvaluationResponse` dump (optional fields omitted when `None`). -/
def EvaluationResponse.dump (r : EvaluationResponse) : Json :=
  .obj ([("evaluator_name", .str r.evaluator_name), ("score", .num r.score)] ++
    (match r.justification with
     | none => []
     | some s => [("justification", Json.str s)]) ++
    (match r.execution_log_id with
     | none => []
     | some s => [("execution_log_id", Json.str s)]) ++
    (match r.cost with
     | none => []
     | some c => [("cost", Json.num c)]))

/-- `JudgeEvaluatorResult` dump (all fields required). -/
def JudgeEvaluatorResult.dump (r : JudgeEvaluatorResult) : Json :=
  .obj [("evaluator_name", .str r.evaluator_name), ("score", .num r.score),
    ("justification", .str r.justification)]

/-- `RunJudgeResponse` dump. -/
def RunJudgeResponse.dump (r : RunJudgeResponse) : Json :=
  .obj [("evaluator_results", .arr (r.evaluator_results.map JudgeEvaluatorResult.dump))]

/-- `EvaluatorsListResponse` dump. -/
def EvaluatorsListResponse.dump (r : EvaluatorsListResponse) : Json :=
  .obj [("evaluators", .arr (r.evaluators.map EvaluatorInfo.dump))]

/-- `JudgesListResponse` dump. -/
def JudgesListResponse.dump (r : JudgesListResponse) : Json :=
  .obj [("judges", .arr (r.judges.map JudgeInfo.dump))]

/-- The union of values a tool handler can return to `call_tool`. -/
inductive ToolResult where
  | evaluatorsList (r : EvaluatorsListResponse)
  | evaluation (r : EvaluationResponse)
  | judgesList (r : JudgesListResponse)
  | judgeRun (r : RunJudgeResponse)
deriving DecidableEq, Repr

/-- `result.model_dump_json(exclude_none=True)`: compact separators,
`None` fields omitted. -/
def ToolResult.dumpJson : ToolResult → String
  | .evaluatorsList r => renderJson false r.dump
  | .evaluation r => renderJson false r.dump
  | .judgesList r => renderJson false r.dump
  | .judgeRun r => renderJson false r.dump

/-! ## Settings (`settings.py`) and service layer -/

/-- The configuration fields the dispatch core and client consume
(`settings.py`; only fields the embedded code reads are modelled). -/
structure Settings where
  coding_policy_evaluator_id : String
  coding_policy_evaluator_request : String
  max_evaluators : Nat
  max_judges : Nat
  show_public_judges : Bool
deriving DecidableEq, Repr

/-- The field defaults declared in `settings.py`. -/
def defaultSettings : Settings :=
  ⟨"4613f248-b60e-403a-bcdc-157d1c44194a",
   "Is the response written according to the coding policy?",
   40, 40, false⟩

/-- Outcomes of the service-layer operations as `call_tool`'s handlers
observe them: either a returned response value or a raised exception's
message (`str(exc)`).  This abstracts the service and network layers,
which is all the dispatch-core claims quantify over. -/
structure ServiceEnv where
  list_evaluators : Except String EvaluatorsListResponse
  run_evaluation : EvaluationRequest → Except String EvaluationResponse
  run_evaluation_by_name : EvaluationRequestByName → Except String EvaluationResponse
  list_judges : Except String JudgesListResponse
  run_judge : RunJudgeRequest → Except String RunJudgeResponse

/-! ## Dispatch core (`core.py`) -/

/-- `EvaluationRequest(...)` construction on already-typed keyword
values, as `_handle_coding_style_evaluation` performs it: the
`validate_not_empty` field validators still run. -/
def mkEvaluationRequest (evaluator_id request response : String)
    (contexts : Option (List String)) (expected_output : Option String) :
    Except ValError EvaluationRequest :=
  if stripIsEmpty request then .error ⟨"request", "Field cannot be empty"⟩
  else if stripIsEmpty response then .error ⟨"response", "Field cannot be empty"⟩
  else .ok ⟨request, response, contexts, expected_output, evaluator_id⟩

/-- `_handle_coding_style_evaluation`: rewrites the call into an
`EvaluationRequest` whose evaluator id and request text come from the
settings, whose contexts are the caller's policy documents and whose
response is the caller's code, then runs a standard evaluation on it. -/
def handle_coding_style_evaluation (st : Settings) (env : ServiceEnv)
    (params : CodingPolicyAdherenceEvaluationRequest) : Except String EvaluationResponse :=
  match mkEvaluationRequest st.coding_policy_evaluator_id
      st.coding_policy_evaluator_request params.code (some params.policy_documents) none with
  | .error e => .error (renderValError e)
  | .ok rag_request => env.run_evaluation rag_request

/-- Membership of a tool name in `self._function_map` (`core.py`
constructor).  Handler values are bound methods, hence always truthy;
`self._function_map.get(name)` is falsy exactly when the name is
absent. -/
def functionMapHas (name : String) : Bool :=
  name = "list_evaluators" || name = "run_evaluation" ||
  name = "run_evaluation_by_name" || name = "run_coding_policy_adherence" ||
  name = "list_judges" || name = "run_judge"

/-- Dispatch of a validated request to its handler (`self._function_map`);
the `.unknown` case is unreachable for names in the handler table, since
`get_request_model` covers exactly those names. -/
def invokeHandler (st : Settings) (env : ServiceEnv) :
    ValidatedRequest → Except String ToolResult
  | .listEvaluators _ => env.list_evaluators.map .evaluatorsList
  | .evalById r => (env.run_evaluation r).map .evaluation
  | .evalByName r => (env.run_evaluation_by_name r).map .evaluation
  | .codingPolicy r => (handle_coding_style_evaluation st env r).map .evaluation
  | .listJudges _ => env.list_judges.map .judgesList
  | .runJudge r => (env.run_judge r).map .judgeRun
  | .unknown _ => .error "AttributeError"

/-- `mcp.types.TextContent` (`type` field embedded as `ty`). -/
structure TextContent where
  ty : String
  text : String
deriving DecidableEq, Repr

/-- `RootMCPServerCore.call_tool(name, arguments)`: resolve the handler
(unknown name → inline error text), resolve and apply the request model
(validation failure → inline error text), invoke the handler (failure →
inline error text), else serialize the result; every path returns
exactly one text content and raises nothing. -/
def call_tool (st : Settings) (env : ServiceEnv) (name : String)
    (arguments : List (String × Json)) : List TextContent :=
  if !functionMapHas name then
    [⟨"text", pyDumps (.obj [("error", .str ("Unknown tool: " ++ name))])⟩]
  else
    let model := (get_request_model name).getD .unknownToolRequest
    match validateArgs model arguments with
    | .error exc =>
        [⟨"text", pyDumps (.obj [("error",
          .str ("Invalid arguments for " ++ name ++ ": " ++ renderValError exc))])⟩]
    | .ok request_model =>
        match invokeHandler st env request_model with
        | .ok result => [⟨"text", result.dumpJson⟩]
        | .error exc =>
            [⟨"text", pyDumps (.obj [("error",
              .str ("Error calling tool " ++ name ++ ": " ++ exc))])⟩]

/-! ## Auxiliary definitions used by the verification -/

/-- The first key of `ks` absent from `fields` (the bracket accesses of
the record decoders fail at the first missing key, in access order). -/
def firstMissingKey (fields : List (String × Json)) : List String → Option String
  | [] => none
  | k :: ks => if lookupField fields k = none then some k else firstMissingKey fields ks

/-- Whether an `Except` value is a success. -/
def exceptIsOk {ε α : Type _} : Except ε α → Bool
  | .ok _ => true
  | .error _ => false

/-- A transport whose every page response carries three results (used to
witness the cap/trim behaviour on a concrete run). -/
def capWitnessTransport : String → TransportOutcome := fun _ =>
  .response 200 "" (some (.obj [("results", .arr [.num 1, .num 2, .num 3])]))

/-- A service environment whose every operation fails with a fixed
message (used to witness dispatch behaviour on concrete calls). -/
def trivialServiceEnv : ServiceEnv :=
  ⟨.error "unavailable", fun _ => .error "unavailable", fun _ => .error "unavailable",
   .error "unavailable", fun _ => .error "unavailable"⟩

/-! ## Helper lemmas -/

/-- Splitting a successful `Except` bind into its two successful steps. -/
theorem except_bind_ok {ε α β : Type _} {x : Except ε α} {f : α → Except ε β} {r : β}
    (h : x >>= f = .ok r) : ∃ a, x = .ok a ∧ f a = .ok r := by
  cases x with
  | ok a => exact ⟨a, rfl, h⟩
  | error e => simp [Bind.bind, Except.bind] at h

/-- When `forbidExtras` succeeds, every argument key is declared. -/
theorem forbidExtras_ok {args : List (String × Json)} {declared : List String}
    (h : forbidExtras args declared = .ok ()) :
    ∀ kv ∈ args, declared.contains kv.1 = true := by
  intro kv hm
  unfold forbidExtras at h
  cases hf : args.find? (fun kv => !(declared.contains kv.1)) with
  | some kv2 => rw [hf] at h; cases h
  | none =>
      have := List.find?_eq_none.mp hf kv hm
      simpa using this

/-- Prepending a binding for a different key leaves a lookup unchanged. -/
theorem lookupField_cons_ne {k k' : String} {v : Json} {args : List (String × Json)}
    (h : ¬ k = k') : lookupField ((k, v) :: args) k' = lookupField args k' := by
  simp [lookupField, List.find?, h]

/-- A successful evaluator-collection decode certifies every record
(at its shifted index): no record failure can hide in a success. -/
theorem decodeEvaluatorsFrom_all_ok : ∀ (raws : List Json) (i : Nat)
    (infos : List EvaluatorInfo),
    decodeEvaluatorsFrom i raws = .ok infos →
    ∀ n (hn : n < raws.length),
      exceptIsOk (decodeEvaluatorRecord (i + n) (raws.get ⟨n, hn⟩)) = true := by
  intro raws
  induction raws with
  | nil => intro i infos h n hn; exact absurd hn (by simp)
  | cons d rest ih =>
      intro i infos h n hn
      obtain ⟨e1, he1, h2⟩ := except_bind_ok h
      obtain ⟨es, hes, _⟩ := except_bind_ok h2
      cases n with
      | zero => simpa [List.get, exceptIsOk, he1] using rfl
      | succ m =>
          have hm : m < rest.length := by simpa using hn
          have := ih (i + 1) es hes m hm
          simpa [List.get, Nat.add_comm, Nat.add_assoc, Nat.add_left_comm] using this

/-- A successful judge-collection decode certifies every record. -/
theorem decodeJudgesFrom_all_ok : ∀ (raws : List Json) (i : Nat) (infos : List JudgeInfo),
    decodeJudgesFrom i raws = .ok infos →
    ∀ n (hn : n < raws.length),
      exceptIsOk (decodeJudgeRecord (i + n) (raws.get ⟨n, hn⟩)) = true := by
  intro raws
  induction raws with
  | nil => intro i infos h n hn; exact absurd hn (by simp)
  | cons d rest ih =>
      intro i infos h n hn
      obtain ⟨e1, he1, h2⟩ := except_bind_ok h
      obtain ⟨es, hes, _⟩ := except_bind_ok h2
      cases n with
      | zero => simpa [List.get, exceptIsOk, he1] using rfl
      | succ m =>
          have hm : m < rest.length := by simpa using hn
          have := ih (i + 1) es hes m hm
          simpa [List.get, Nat.add_comm, Nat.add_assoc, Nat.add_left_comm] using this

/-! ## Claim theorems -/

/-- Claim C1: for every tool name and raw argument mapping, `call_tool`
returns exactly one text result and propagates no exception (the
embedding is a total function into a singleton list): an unregistered
name yields the `Unknown tool` error text, a validation failure yields
the `Invalid arguments` error text, a handler failure yields the
`Error calling tool` error text, and handler success yields the result
serialized with `None` fields omitted. -/
theorem call_tool_contract (st : Settings) (env : ServiceEnv) (name : String)
    (arguments : List (String × Json)) :
    (call_tool st env name arguments).length = 1 ∧
    (functionMapHas name = false →
      call_tool st env name arguments =
        [⟨"text", pyDumps (.obj [("error", .str ("Unknown tool: " ++ name))])⟩]) ∧
    (∀ exc, functionMapHas name = true →
      validateArgs ((get_request_model name).getD .unknownToolRequest) arguments =
        .error exc →
      call_tool st env name arguments =
        [⟨"text", pyDumps (.obj [("error",
          .str ("Invalid arguments for " ++ name ++ ": " ++ renderValError exc))])⟩]) ∧
    (∀ req res, functionMapHas name = true →
      validateArgs ((get_request_model name).getD .unknownToolRequest) arguments = .ok req →
      invokeHandler st env req = .ok res →
      call_tool st env name arguments = [⟨"text", res.dumpJson⟩]) ∧
    (∀ req exc, functionMapHas name = true →
      validateArgs ((get_request_model name).getD .unknownToolRequest) arguments = .ok req →
      invokeHandler st env req = .error exc →
      call_tool st env name arguments =
        [⟨"text", pyDumps (.obj [("error",
          .str ("Error calling tool " ++ name ++ ": " ++ exc))])⟩]) := by
  refine ⟨?_, ?_, ?_, ?_, ?_⟩
  · by_cases hF : functionMapHas name
    · cases hv : validateArgs ((get_request_model name).getD .unknownToolRequest)
          arguments with
      | error exc => simp [call_tool, hF, hv]
      | ok req =>
          cases hi : invokeHandler st env req with
          | ok res => simp [call_tool, hF, hv, hi]
          | error exc => simp [call_tool, hF, hv, hi]
    · simp [call_tool, hF]
  · intro hF
    simp [call_tool, hF]
  · intro exc hF hval
    simp [call_tool, hF, hval]
  · intro req res hF hval hi
    simp [call_tool, hF, hval, hi]
  · intro req exc hF hval hi
    simp [call_tool, hF, hval, hi]

theorem call_tool_contract_witness :
    call_tool defaultSettings trivialServiceEnv "bogus_tool" [] =
      [⟨"text", pyDumps (.obj [("error", .str ("Unknown tool: " ++ "bogus_tool"))])⟩] ∧
    call_tool defaultSettings trivialServiceEnv "list_evaluators" [("oops", .num 1)] =
      [⟨"text", pyDumps (.obj [("error", .str ("Invalid arguments for " ++
        "list_evaluators" ++ ": " ++
        renderValError ⟨"oops", "Extra inputs are not permitted"⟩))])⟩] ∧
    call_tool defaultSettings
        ⟨.ok ⟨[]⟩, fun _ => .error "x", fun _ => .error "x", .error "x", fun _ => .error "x"⟩
        "list_evaluators" [] = [⟨"text", (ToolResult.evaluatorsList ⟨[]⟩).dumpJson⟩] ∧
    call_tool defaultSettings trivialServiceEnv "list_judges" [] =
      [⟨"text", pyDumps (.obj [("error", .str ("Error calling tool " ++ "list_judges" ++
        ": " ++ "unavailable"))])⟩] :=
  ⟨(call_tool_contract defaultSettings trivialServiceEnv "bogus_tool" []).2.1 (by decide),
   (call_tool_contract defaultSettings trivialServiceEnv "list_evaluators"
      [("oops", .num 1)]).2.2.1 ⟨"oops", "Extra inputs are not permitted"⟩ (by decide)
      (by decide),
   (call_tool_contract defaultSettings
      ⟨.ok ⟨[]⟩, fun _ => .error "x", fun _ => .error "x", .error "x", fun _ => .error "x"⟩
      "list_evaluators" []).2.2.2.1 (.listEvaluators ⟨⟩) (.evaluatorsList ⟨[]⟩) (by decide)
      (by decide) (by decide),
   (call_tool_contract defaultSettings trivialServiceEnv "list_judges" []).2.2.2.2
      (.listJudges ⟨⟩) "unavailable" (by decide) (by decide) (by decide)⟩

/-- Claim C2: a fetched collection never exceeds the requested cap: when
the pagination loop returns a list, the trimmed result has length at
most `max_to_fetch`, and when the loop overshot (running total at least
the cap), the trim makes the cap exact — never one page over. -/
theorem fetch_paginated_results_cap (transport : String → TransportOutcome)
    (initial_url : String) (max_to_fetch : Nat)
    (url_params : List (String × Option String)) (res items : List Json)
    (hloop : fetchLoopAux transport url_params max_to_fetch [] (.str initial_url) = .ok items)
    (h : fetch_paginated_results transport initial_url max_to_fetch url_params = .ok res) :
    res.length ≤ max_to_fetch ∧ (max_to_fetch ≤ items.length → res.length = max_to_fetch) := by
  unfold fetch_paginated_results at h
  rw [hloop] at h
  have hres : (if max_to_fetch < items.length then items.take max_to_fetch else items) = res :=
    Except.ok.inj h
  constructor
  · rw [← hres]
    by_cases hgt : max_to_fetch < items.length
    · simp [hgt, List.length_take]
    · simp [hgt]
      omega
  · intro hge
    rw [← hres]
    by_cases hgt : max_to_fetch < items.length
    · simp [hgt, List.length_take]
      omega
    · simp [hgt]
      omega

theorem fetch_paginated_results_cap_witness :
    List.length [Json.num 1, Json.num 2] ≤ 2 ∧
      (2 ≤ List.length [Json.num 1, Json.num 2, Json.num 3] →
        List.length [Json.num 1, Json.num 2] = 2) := by
  have h1 : fetchLoopAux capWitnessTransport [] 2 [] (.str "/v1/evaluators?page_size=2") =
      fetchLoopAux capWitnessTransport [] 2 [Json.num 1, Json.num 2, Json.num 3] (.str "") := by
    rw [fetchLoopAux.eq_def]
    rfl
  have h2 : fetchLoopAux capWitnessTransport [] 2 [Json.num 1, Json.num 2, Json.num 3]
      (.str "") = .ok [Json.num 1, Json.num 2, Json.num 3] := by
    rw [fetchLoopAux.eq_def]
    decide
  refine fetch_paginated_results_cap capWitnessTransport "/v1/evaluators?page_size=2" 2 []
    [Json.num 1, Json.num 2] [Json.num 1, Json.num 2, Json.num 3] (h1.trans h2) ?_
  unfold fetch_paginated_results
  rw [h1, h2]
  decide

/-- Claim C3: exactly two page shapes are accepted by the pagination
loop: an object with a `results` list (its `next` cursor, after
parameter re-appending, continues pagination) and a bare list, which
yields an empty continuation cursor on which the loop immediately stops
(final page).  An object without a `results` list fails with the
decoding error naming the `results` field; a value that is neither dict
nor list fails with the decoding error naming the unexpected type. -/
theorem processPage_two_shapes (url_params : List (String × Option String)) :
    (∀ fields xs next,
        lookupField fields "results" = some (.arr xs) →
        preserveUrlParams ((lookupField fields "next").getD (.str "")) url_params = .ok next →
        processPage url_params (.obj fields) = .ok (xs, next)) ∧
    (∀ xs, processPage url_params (.arr xs) = .ok (xs, .str "")) ∧
    (∀ transport max_to_fetch items,
        fetchLoopAux transport url_params max_to_fetch items (.str "") = .ok items) ∧
    (∀ fields next,
        (match lookupField fields "results" with
         | some (.arr _) => False
         | _ => True) →
        preserveUrlParams ((lookupField fields "next").getD (.str "")) url_params = .ok next →
        processPage url_params (.obj fields) =
          .error (.validation "Could not find \x27results\x27 field in response"
            (.obj fields))) ∧
    (∀ j, (match j with | .obj _ => False | .arr _ => False | _ => True) →
        processPage url_params j =
          .error (.validation ("Expected response to be a dict or list, got " ++ pyTypeName j)
            j)) := by
  refine ⟨?_, ?_, ?_, ?_, ?_⟩
  · intro fields xs next hres hnext
    simp [processPage, hnext, hres, Bind.bind, Except.bind, pure, Except.pure]
  · intro xs
    simp [processPage]
  · intro transport max_to_fetch items
    rw [fetchLoopAux.eq_def]
    simp [pyTruthy]
  · intro fields next hres hnext
    simp only [processPage, hnext, Bind.bind, Except.bind]
    match hr : lookupField fields "results" with
    | none => simp
    | some (.arr xs) => rw [hr] at hres; exact absurd hres (by simp)
    | some .null | some (.bool _) | some (.num _) | some (.str _) | some (.obj _) => simp
  · intro j hj
    match j with
    | .null | .bool _ | .num _ | .str _ => simp [processPage]
    | .arr _ | .obj _ => exact absurd hj (by simp)

theorem processPage_two_shapes_witness :
    processPage [] (.obj [("results", .arr [.num 7])]) = .ok ([.num 7], .str "") ∧
    processPage [] (.arr [.num 5]) = .ok ([.num 5], .str "") ∧
    processPage [] (.obj []) =
      .error (.validation "Could not find \x27results\x27 field in response" (.obj [])) ∧
    processPage [] (.str "what") =
      .error (.validation "Expected response to be a dict or list, got str" (.str "what")) :=
  ⟨(processPage_two_shapes []).1 [("results", .arr [.num 7])] [.num 7] (.str "")
      (by decide) (by decide),
   (processPage_two_shapes []).2.1 [.num 5],
   (processPage_two_shapes []).2.2.2.1 [] (.str "") (by trivial) (by decide),
   (processPage_two_shapes []).2.2.2.2 (.str "what") (by trivial)⟩

/-- Claim C4 (amended): a record lacking a required bracket-accessed
field fails the whole collection decode with an error naming the index
and the first missing field — for judges the required fields are `id`,
`name`, `created_at`; for evaluators the decoder additionally requires
`inputs`.  A successful collection decode certifies every record (no
partial list), and a record carrying all the fields the decoder
requires plus unknown extras decodes successfully with the extras
discarded. -/
theorem record_required_fields :
    (∀ i fields k,
        firstMissingKey fields ["id", "name", "created_at", "inputs"] = some k →
        decodeEvaluatorRecord i (.obj fields) =
          .error (.validation
            ("Evaluator at index " ++ toString i ++ " missing required field: \x27" ++ k ++
              "\x27")
            (.obj fields))) ∧
    (∀ raws infos, decodeEvaluators raws = .ok infos →
        ∀ n (hn : n < raws.length),
          exceptIsOk (decodeEvaluatorRecord n (raws.get ⟨n, hn⟩)) = true) ∧
    (∀ i fields idv nv cv,
        lookupField fields "id" = some (.str idv) →
        lookupField fields "name" = some (.str nv) →
        lookupField fields "created_at" = some (.str cv) →
        lookupField fields "objective" = none →
        lookupField fields "inputs" = some (.obj []) →
        decodeEvaluatorRecord i (.obj fields) = .ok ⟨nv, idv, cv, none, []⟩) ∧
    (∀ i fields k,
        firstMissingKey fields ["id", "name", "created_at"] = some k →
        decodeJudgeRecord i (.obj fields) =
          .error (.validation
            ("Judge at index " ++ toString i ++ " missing required field: \x27" ++ k ++
              "\x27")
            (.obj fields))) ∧
    (∀ raws infos, decodeJudges raws = .ok infos →
        ∀ n (hn : n < raws.length),
          exceptIsOk (decodeJudgeRecord n (raws.get ⟨n, hn⟩)) = true) ∧
    (∀ i fields idv nv cv,
        lookupField fields "id" = some (.str idv) →
        lookupField fields "name" = some (.str nv) →
        lookupField fields "created_at" = some (.str cv) →
        lookupField fields "intent" = none →
        lookupField fields "evaluators" = none →
        decodeJudgeRecord i (.obj fields) = .ok ⟨nv, idv, cv, [], none⟩) := by
  refine ⟨?_, ?_, ?_, ?_, ?_, ?_⟩
  · intro i fields k hk
    cases hid : lookupField fields "id" with
    | none =>
        have hk' : k = "id" := by
          simp [firstMissingKey, hid] at hk
          exact hk.symm
        subst hk'
        simp [decodeEvaluatorRecord, pyGetItem, hid, Bind.bind, Except.bind]
    | some v =>
        cases hname : lookupField fields "name" with
        | none =>
            have hk' : k = "name" := by
              simp [firstMissingKey, hid, hname] at hk
              exact hk.symm
            subst hk'
            simp [decodeEvaluatorRecord, pyGetItem, hid, hname, Bind.bind, Except.bind]
        | some v2 =>
            cases hca : lookupField fields "created_at" with
            | none =>
                have hk' : k = "created_at" := by
                  simp [firstMissingKey, hid, hname, hca] at hk
                  exact hk.symm
                subst hk'
                simp [decodeEvaluatorRecord, pyGetItem, hid, hname, hca, Bind.bind,
                  Except.bind]
            | some v3 =>
                cases hinp : lookupField fields "inputs" with
                | none =>
                    have hk' : k = "inputs" := by
                      simp [firstMissingKey, hid, hname, hca, hinp] at hk
                      exact hk.symm
                    subst hk'
                    simp [decodeEvaluatorRecord, pyGetItem, hid, hname, hca, hinp,
                      Bind.bind, Except.bind]
                | some v4 =>
                    simp [firstMissingKey, hid, hname, hca, hinp] at hk
  · intro raws infos h n hn
    simpa using decodeEvaluatorsFrom_all_ok raws 0 infos h n hn
  · intro i fields idv nv cv hid hname hca hobj hinp
    simp [decodeEvaluatorRecord, pyGetItem, hid, hname, hca, hobj, hinp, validateInputs,
      Bind.bind, Except.bind, pure, Except.pure, List.mapM, List.mapM.loop]
  · intro i fields k hk
    cases hid : lookupField fields "id" with
    | none =>
        have hk' : k = "id" := by
          simp [firstMissingKey, hid] at hk
          exact hk.symm
        subst hk'
        simp [decodeJudgeRecord, pyGetItem, hid, Bind.bind, Except.bind]
    | some v =>
        cases hname : lookupField fields "name" with
        | none =>
            have hk' : k = "name" := by
              simp [firstMissingKey, hid, hname] at hk
              exact hk.symm
            subst hk'
            simp [decodeJudgeRecord, pyGetItem, hid, hname, Bind.bind, Except.bind]
        | some v2 =>
            cases hca : lookupField fields "created_at" with
            | none =>
                have hk' : k = "created_at" := by
                  simp [firstMissingKey, hid, hname, hca] at hk
                  exact hk.symm
                subst hk'
                simp [decodeJudgeRecord, pyGetItem, hid, hname, hca, Bind.bind, Except.bind]
            | some v3 =>
                simp [firstMissingKey, hid, hname, hca] at hk
  · intro raws infos h n hn
    simpa using decodeJudgesFrom_all_ok raws 0 infos h n hn
  · intro i fields idv nv cv hid hname hca hint hev
    simp [decodeJudgeRecord, pyGetItem, hid, hname, hca, hint, hev,
      Bind.bind, Except.bind, pure, Except.pure]

theorem record_required_fields_counterexample :
    decodeEvaluators [Json.obj [("id", .str "a"), ("name", .str "b"),
      ("created_at", .str "c"), ("unknown_extra", .str "x")]] =
      .error (.validation "Evaluator at index 0 missing required field: \x27inputs\x27"
        (Json.obj [("id", .str "a"), ("name", .str "b"), ("created_at", .str "c"),
          ("unknown_extra", .str "x")])) := by decide

theorem record_required_fields_witness :
    decodeEvaluatorRecord 2 (.obj [("created_at", .str "c")]) =
      .error (.validation "Evaluator at index 2 missing required field: \x27id\x27"
        (.obj [("created_at", .str "c")])) ∧
    decodeEvaluatorRecord 0 (.obj [("id", .str "a"), ("name", .str "b"),
        ("created_at", .str "c"), ("inputs", .obj []), ("future_field", .bool true)]) =
      .ok ⟨"b", "a", "c", none, []⟩ ∧
    exceptIsOk (decodeEvaluatorRecord 0 (.obj [("id", .str "a"), ("name", .str "b"),
        ("created_at", .str "c"), ("inputs", .obj [])])) = true ∧
    decodeJudgeRecord 1 (.obj [("id", .str "j"), ("created_at", .str "c")]) =
      .error (.validation "Judge at index 1 missing required field: \x27name\x27"
        (.obj [("id", .str "j"), ("created_at", .str "c")])) ∧
    decodeJudgeRecord 0 (.obj [("id", .str "j"), ("name", .str "J"),
        ("created_at", .str "c"), ("extra", .num 3)]) = .ok ⟨"J", "j", "c", [], none⟩ :=
  ⟨record_required_fields.1 2 _ "id" (by decide),
   record_required_fields.2.2.1 0 _ "a" "b" "c" (by decide) (by decide) (by decide)
     (by decide) (by decide),
   record_required_fields.2.1 [Json.obj [("id", .str "a"), ("name", .str "b"),
       ("created_at", .str "c"), ("inputs", .obj [])]] [⟨"b", "a", "c", none, []⟩]
     (by decide) 0 (by decide),
   record_required_fields.2.2.2.1 1 _ "name" (by decide),
   record_required_fields.2.2.2.2.2 0 _ "j" "J" "c" (by decide) (by decide) (by decide)
     (by decide) (by decide)⟩

/-- Claim C10: the `description` of a decoded judge is populated from
the raw record key `intent`; the raw key `description` is never
consulted, so a record carrying only `description` (plus the required
fields) decodes with `description = none`. -/
theorem judge_description_from_intent :
    (∀ i fields idv nv cv s,
        lookupField fields "id" = some (.str idv) →
        lookupField fields "name" = some (.str nv) →
        lookupField fields "created_at" = some (.str cv) →
        lookupField fields "evaluators" = none →
        lookupField fields "intent" = some (.str s) →
        decodeJudgeRecord i (.obj fields) = .ok ⟨nv, idv, cv, [], some s⟩) ∧
    (∀ i fields idv nv cv d,
        lookupField fields "id" = some (.str idv) →
        lookupField fields "name" = some (.str nv) →
        lookupField fields "created_at" = some (.str cv) →
        lookupField fields "evaluators" = none →
        lookupField fields "intent" = none →
        lookupField fields "description" = some d →
        decodeJudgeRecord i (.obj fields) = .ok ⟨nv, idv, cv, [], none⟩) := by
  constructor
  · intro i fields idv nv cv s hid hname hca hev hint
    simp [decodeJudgeRecord, pyGetItem, hid, hname, hca, hint, hev,
      Bind.bind, Except.bind, pure, Except.pure]
  · intro i fields idv nv cv d hid hname hca hev hint _hdesc
    simp [decodeJudgeRecord, pyGetItem, hid, hname, hca, hint, hev,
      Bind.bind, Except.bind, pure, Except.pure]

theorem judge_description_from_intent_witness :
    decodeJudgeRecord 0 (.obj [("id", .str "j"), ("name", .str "J"),
        ("created_at", .str "c"), ("intent", .str "my purpose")]) =
      .ok ⟨"J", "j", "c", [], some "my purpose"⟩ ∧
    decodeJudgeRecord 0 (.obj [("id", .str "j"), ("name", .str "J"),
        ("created_at", .str "c"), ("description", .str "never read")]) =
      .ok ⟨"J", "j", "c", [], none⟩ :=
  ⟨judge_description_from_intent.1 0 _ "j" "J" "c" "my purpose" (by decide) (by decide)
     (by decide) (by decide) (by decide),
   judge_description_from_intent.2 0 _ "j" "J" "c" (.str "never read") (by decide)
     (by decide) (by decide) (by decide) (by decide) (by decide)⟩

/-- Claim C6 (amended): `run_judge` decodes the whole response body
directly into `RunJudgeResponse` — unlike `run_evaluator`, it does not
unwrap a top-level `result` envelope, so an enveloped judge payload
(with `result` present and no top-level `evaluator_results`) always
fails decoding, while `run_evaluator` on a body carrying `result`
decodes the envelope contents. -/
theorem run_judge_decodes_whole_body :
    (∀ j r, RunJudgeResponse.validate j = .ok r → runJudgeDecode j = .ok r) ∧
    (∀ j e, RunJudgeResponse.validate j = .error e →
        runJudgeDecode j =
          .error (.validation ("Invalid judge response format: " ++ renderValError e) j)) ∧
    (∀ fields inner, lookupField fields "result" = some inner →
        lookupField fields "evaluator_results" = none →
        ∀ r, runJudgeDecode (.obj fields) ≠ .ok r) ∧
    (∀ fields inner, lookupField fields "result" = some inner →
        runEvaluatorDecode (.obj fields) =
          (match EvaluationResponse.validate inner with
           | .ok r => .ok r
           | .error e =>
               .error (.validation ("Invalid evaluation response format: " ++
                 renderValError e) (.obj fields)))) := by
  refine ⟨?_, ?_, ?_, ?_⟩
  · intro j r h
    simp [runJudgeDecode, h]
  · intro j e h
    simp [runJudgeDecode, h]
  · intro fields inner hres hev r
    simp [runJudgeDecode, RunJudgeResponse.validate, hev]
  · intro fields inner hres
    simp [runEvaluatorDecode, hres]

theorem run_judge_decodes_whole_body_witness :
    runJudgeDecode (.obj [("evaluator_results", .arr [])]) = .ok ⟨[]⟩ ∧
    runJudgeDecode (.obj [("result", .obj [("evaluator_results", .arr [])])]) ≠
      .ok ⟨[]⟩ ∧
    runEvaluatorDecode (.obj [("result",
        .obj [("evaluator_name", .str "E"), ("score", .num 1)])]) =
      .ok ⟨"E", 1, none, none, none⟩ :=
  ⟨run_judge_decodes_whole_body.1 _ ⟨[]⟩ (by decide),
   run_judge_decodes_whole_body.2.2.1 _ (.obj [("evaluator_results", .arr [])])
     (by decide) (by decide) ⟨[]⟩,
   by
     have h := run_judge_decodes_whole_body.2.2.2
       [("result", .obj [("evaluator_name", .str "E"), ("score", .num 1)])]
       (.obj [("evaluator_name", .str "E"), ("score", .num 1)]) (by decide)
     rw [h]
     decide⟩

theorem run_judge_no_envelope_counterexample :
    runJudgeDecode (.obj [("result", .obj [("evaluator_results", .arr [])])]) =
      .error (.validation "Invalid judge response format: evaluator_results: Field required"
        (.obj [("result", .obj [("evaluator_results", .arr [])])])) ∧
    RunJudgeResponse.validate (.obj [("evaluator_results", .arr [])]) = .ok ⟨[]⟩ := by
  constructor
  · decide
  · decide

/-- Claim C9 (amended): `_make_request` on status at least 400 raises a
`ScorableAPIError` carrying that status and a message taken from the
JSON `detail` value when the body parses to a dict containing one; when
the body parses to a dict without `detail`, the message is the
stringified parsed dict (not the raw body text); when the body is not a
JSON dict, the message is the raw body text if non-empty, else the
status line `HTTP <code>`.  A transport failure raises the same error
kind with status 0 and a connection-error message; a 204 yields an
empty payload; another success status returns the parsed body. -/
theorem make_request_error_contract :
    (∀ msg, make_request (.requestError msg) =
        .error (.api ⟨0, .str ("Connection error: " ++ msg)⟩)) ∧
    (∀ status raw fields v, 400 ≤ status → lookupField fields "detail" = some v →
        make_request (.response status raw (some (.obj fields))) =
          .error (.api ⟨status, v⟩)) ∧
    (∀ status raw fields, 400 ≤ status → lookupField fields "detail" = none →
        make_request (.response status raw (some (.obj fields))) =
          .error (.api ⟨status, .str (pyRepr (.obj fields))⟩)) ∧
    (∀ status raw parsed, 400 ≤ status →
        (match parsed with | some (.obj _) => False | _ => True) → raw ≠ "" →
        make_request (.response status raw parsed) = .error (.api ⟨status, .str raw⟩)) ∧
    (∀ status parsed, 400 ≤ status →
        (match parsed with | some (.obj _) => False | _ => True) →
        make_request (.response status "" parsed) =
          .error (.api ⟨status, .str ("HTTP " ++ toString status)⟩)) ∧
    (∀ raw parsed, make_request (.response 204 raw parsed) = .ok (.obj [])) ∧
    (∀ status raw j, status < 400 → status ≠ 204 →
        make_request (.response status raw (some j)) = .ok j) := by
  refine ⟨?_, ?_, ?_, ?_, ?_, ?_, ?_⟩
  · intro msg; rfl
  · intro status raw fields v hge hdet
    simp [make_request, hge, hdet]
  · intro status raw fields hge hdet
    simp [make_request, hge, hdet]
  · intro status raw parsed hge hshape hraw
    match parsed with
    | none => simp [make_request, hge, hraw]
    | some .null | some (.bool _) | some (.num _) | some (.str _) | some (.arr _) =>
        simp [make_request, hge, hraw]
    | some (.obj _) => exact absurd hshape (by simp)
  · intro status parsed hge hshape
    match parsed with
    | none => simp [make_request, hge]
    | some .null | some (.bool _) | some (.num _) | some (.str _) | some (.arr _) =>
        simp [make_request, hge]
    | some (.obj _) => exact absurd hshape (by simp)
  · intro raw parsed
    norm_num [make_request]
  · intro status raw j hlt h204
    simp [make_request, Nat.not_le.mpr hlt, h204]

theorem make_request_error_contract_witness :
    make_request (.requestError "boom") =
      .error (.api ⟨0, .str "Connection error: boom"⟩) ∧
    make_request (.response 404 "\x7b\"detail\": \"nf\"\x7d"
        (some (.obj [("detail", .str "nf")]))) = .error (.api ⟨404, .str "nf"⟩) ∧
    make_request (.response 500 "oops" (some (.arr []))) =
      .error (.api ⟨500, .str "oops"⟩) ∧
    make_request (.response 500 "" none) = .error (.api ⟨500, .str "HTTP 500"⟩) ∧
    make_request (.response 204 "" none) = .ok (.obj []) :=
  ⟨make_request_error_contract.1 "boom",
   make_request_error_contract.2.1 404 _ _ (.str "nf") (by decide) (by decide),
   make_request_error_contract.2.2.2.1 500 "oops" (some (.arr [])) (by decide) (by trivial)
     (by decide),
   make_request_error_contract.2.2.2.2.1 500 none (by decide) (by trivial),
   make_request_error_contract.2.2.2.2.2.1 "" none⟩

theorem make_request_message_counterexample :
    make_request (.response 500 "\x7b \x7d" (some (.obj []))) =
      .error (.api ⟨500, .str "\x7b\x7d"⟩) ∧
    ("\x7b\x7d" : String) ≠ "\x7b \x7d" ∧
    lookupField ([] : List (String × Json)) "detail" = none :=
  ⟨by decide, by decide, by decide⟩

/-- Claim C5 (amended): the request models extending the forbid-extras
base (`list_evaluators`, `list_judges`, `run_coding_policy_adherence`,
`run_judge`) reject any argument mapping containing an undeclared key;
the two evaluation models (`run_evaluation`, `run_evaluation_by_name`)
inherit ignore-extras from the API-facing base, so an undeclared key
leaves their validation outcome unchanged (silently discarded) rather
than failing; the unknown-tool placeholder accepts and retains
arbitrary fields. -/
theorem extra_fields_policy :
    (∀ args kv, kv ∈ args → ∀ r, validateArgs .listEvaluatorsRequest args ≠ .ok r) ∧
    (∀ args kv, kv ∈ args → ∀ r, validateArgs .listJudgesRequest args ≠ .ok r) ∧
    (∀ args kv, kv ∈ args → (["policy_documents", "code"].contains kv.1) = false →
        ∀ r, validateArgs .codingPolicyRequest args ≠ .ok r) ∧
    (∀ args kv, kv ∈ args →
        (["judge_id", "judge_name", "request", "response"].contains kv.1) = false →
        ∀ r, validateArgs .runJudgeRequest args ≠ .ok r) ∧
    (∀ args k v,
        ((["request", "response", "contexts", "expected_output", "evaluator_id"].contains k)
          = false) →
        validateArgs .evaluationRequest ((k, v) :: args) =
          validateArgs .evaluationRequest args) ∧
    (∀ args k v,
        ((["request", "response", "contexts", "expected_output", "evaluator_name"].contains k)
          = false) →
        validateArgs .evaluationRequestByName ((k, v) :: args) =
          validateArgs .evaluationRequestByName args) ∧
    (∀ args, validateArgs .unknownToolRequest args = .ok (.unknown args)) := by
  refine ⟨?_, ?_, ?_, ?_, ?_, ?_, ?_⟩
  · intro args kv hm r hok
    simp only [validateArgs, Except.map] at hok
    cases hv : ListEvaluatorsRequest.validateArgs args with
    | error e => rw [hv] at hok; cases hok
    | ok u =>
        unfold ListEvaluatorsRequest.validateArgs at hv
        obtain ⟨a, ha, _⟩ := except_bind_ok hv
        have ha' : forbidExtras args [] = .ok () := by cases a; exact ha
        have := forbidExtras_ok ha' kv hm
        simp at this
  · intro args kv hm r hok
    simp only [validateArgs, Except.map] at hok
    cases hv : ListJudgesRequest.validateArgs args with
    | error e => rw [hv] at hok; cases hok
    | ok u =>
        unfold ListJudgesRequest.validateArgs at hv
        obtain ⟨a, ha, _⟩ := except_bind_ok hv
        have ha' : forbidExtras args [] = .ok () := by cases a; exact ha
        have := forbidExtras_ok ha' kv hm
        simp at this
  · intro args kv hm hdecl r hok
    simp only [validateArgs, Except.map] at hok
    cases hv : CodingPolicyAdherenceEvaluationRequest.validateArgs args with
    | error e => rw [hv] at hok; cases hok
    | ok u =>
        unfold CodingPolicyAdherenceEvaluationRequest.validateArgs at hv
        obtain ⟨pd, hpd, hv2⟩ := except_bind_ok hv
        obtain ⟨c, hc, hv3⟩ := except_bind_ok hv2
        obtain ⟨a, ha, _⟩ := except_bind_ok hv3
        have ha' : forbidExtras args ["policy_documents", "code"] = .ok () := by
          cases a; exact ha
        have := forbidExtras_ok ha' kv hm
        rw [hdecl] at this
        cases this
  · intro args kv hm hdecl r hok
    simp only [validateArgs, Except.map] at hok
    cases hv : RunJudgeRequest.validateArgs args with
    | error e => rw [hv] at hok; cases hok
    | ok u =>
        unfold RunJudgeRequest.validateArgs at hv
        obtain ⟨jid, hjid, hv2⟩ := except_bind_ok hv
        obtain ⟨jn, hjn, hv3⟩ := except_bind_ok hv2
        obtain ⟨rq, hrq, hv4⟩ := except_bind_ok hv3
        obtain ⟨rp, hrp, hv5⟩ := except_bind_ok hv4
        obtain ⟨a, ha, _⟩ := except_bind_ok hv5
        have ha' : forbidExtras args ["judge_id", "judge_name", "request", "response"] =
            .ok () := by cases a; exact ha
        have := forbidExtras_ok ha' kv hm
        rw [hdecl] at this
        cases this
  · intro args k v hk
    have h1 : ¬ k = "request" := by intro he; subst he; simp at hk
    have h2 : ¬ k = "response" := by intro he; subst he; simp at hk
    have h3 : ¬ k = "contexts" := by intro he; subst he; simp at hk
    have h4 : ¬ k = "expected_output" := by intro he; subst he; simp at hk
    have h5 : ¬ k = "evaluator_id" := by intro he; subst he; simp at hk
    simp only [validateArgs]
    have hv : EvaluationRequest.validateArgs ((k, v) :: args) =
        EvaluationRequest.validateArgs args := by
      simp only [EvaluationRequest.validateArgs, aNonEmptyStr, aOptStrList, vOptStr, aStr,
        vStr, lookupField_cons_ne h1, lookupField_cons_ne h2, lookupField_cons_ne h3,
        lookupField_cons_ne h4, lookupField_cons_ne h5]
    rw [hv]
  · intro args k v hk
    have h1 : ¬ k = "request" := by intro he; subst he; simp at hk
    have h2 : ¬ k = "response" := by intro he; subst he; simp at hk
    have h3 : ¬ k = "contexts" := by intro he; subst he; simp at hk
    have h4 : ¬ k = "expected_output" := by intro he; subst he; simp at hk
    have h5 : ¬ k = "evaluator_name" := by intro he; subst he; simp at hk
    simp only [validateArgs]
    have hv : EvaluationRequestByName.validateArgs ((k, v) :: args) =
        EvaluationRequestByName.validateArgs args := by
      simp only [EvaluationRequestByName.validateArgs, aNonEmptyStr, aOptStrList, vOptStr,
        aStr, vStr, lookupField_cons_ne h1, lookupField_cons_ne h2, lookupField_cons_ne h3,
        lookupField_cons_ne h4, lookupField_cons_ne h5]
    rw [hv]
  · intro args; rfl

theorem extra_fields_policy_counterexample :
    validateArgs .evaluationRequest [("evaluator_id", .str "e"), ("request", .str "q"),
      ("response", .str "r"), ("unknown_field", .str "x")] =
      .ok (.evalById ⟨"q", "r", none, none, "e"⟩) ∧
    get_request_model "run_evaluation" = some .evaluationRequest :=
  ⟨by decide, by decide⟩

theorem extra_fields_policy_witness :
    validateArgs .listEvaluatorsRequest [("x", Json.null)] ≠
      .ok (.listEvaluators ⟨⟩) ∧
    validateArgs .runJudgeRequest [("judge_id", .str "j"), ("request", .str "q"),
      ("response", .str "r"), ("surprise", .num 1)] ≠ .ok (.runJudge ⟨"j", "-", "q", "r"⟩) ∧
    validateArgs .evaluationRequest (("workspace", .num 1) ::
      [("evaluator_id", .str "e"), ("request", .str "q"), ("response", .str "r")]) =
      validateArgs .evaluationRequest
        [("evaluator_id", .str "e"), ("request", .str "q"), ("response", .str "r")] ∧
    validateArgs .unknownToolRequest [("anything", .str "goes")] =
      .ok (.unknown [("anything", .str "goes")]) :=
  ⟨extra_fields_policy.1 [("x", Json.null)] ("x", Json.null) (by decide) _,
   extra_fields_policy.2.2.2.1 _ ("surprise", .num 1) (by decide) (by decide) _,
   extra_fields_policy.2.2.2.2.1 _ "workspace" (.num 1) (by decide),
   extra_fields_policy.2.2.2.2.2.2 _⟩

/-- Claim C7: an evaluation request (by id or by name) whose `request`
or `response` string is whitespace-only is rejected during validation —
the emitted text is the inline `Invalid arguments` error and does not
depend on the service environment, so no network request is issued. -/
theorem empty_eval_strings_rejected (st : Settings) (env : ServiceEnv) (e q r : String) :
    (stripIsEmpty q = true →
      call_tool st env "run_evaluation"
          [("evaluator_id", .str e), ("request", .str q), ("response", .str r)] =
        [⟨"text", pyDumps (.obj [("error",
          .str "Invalid arguments for run_evaluation: request: Field cannot be empty")])⟩] ∧
      call_tool st env "run_evaluation_by_name"
          [("evaluator_name", .str e), ("request", .str q), ("response", .str r)] =
        [⟨"text", pyDumps (.obj [("error",
          .str
            "Invalid arguments for run_evaluation_by_name: request: Field cannot be empty")])⟩]) ∧
    (stripIsEmpty q = false → stripIsEmpty r = true →
      call_tool st env "run_evaluation"
          [("evaluator_id", .str e), ("request", .str q), ("response", .str r)] =
        [⟨"text", pyDumps (.obj [("error",
          .str "Invalid arguments for run_evaluation: response: Field cannot be empty")])⟩] ∧
      call_tool st env "run_evaluation_by_name"
          [("evaluator_name", .str e), ("request", .str q), ("response", .str r)] =
        [⟨"text", pyDumps (.obj [("error",
          .str
            "Invalid arguments for run_evaluation_by_name: response: Field cannot be empty")])⟩]) := by
  constructor
  · intro hq
    constructor <;>
      simp [call_tool, functionMapHas, get_request_model, validateArgs,
        EvaluationRequest.validateArgs, EvaluationRequestByName.validateArgs, aNonEmptyStr,
        vStr, aStr, aOptStrList, vOptStr, lookupField, List.find?, hq, renderValError,
        Bind.bind, Except.bind, Except.map, pure, Except.pure]
  · intro hq hr
    constructor <;>
      simp [call_tool, functionMapHas, get_request_model, validateArgs,
        EvaluationRequest.validateArgs, EvaluationRequestByName.validateArgs, aNonEmptyStr,
        vStr, aStr, aOptStrList, vOptStr, lookupField, List.find?, hq, hr, renderValError,
        Bind.bind, Except.bind, Except.map, pure, Except.pure]

theorem empty_eval_strings_rejected_witness :
    call_tool defaultSettings trivialServiceEnv "run_evaluation"
        [("evaluator_id", .str "e"), ("request", .str "  "), ("response", .str "ok")] =
      [⟨"text", pyDumps (.obj [("error",
        .str "Invalid arguments for run_evaluation: request: Field cannot be empty")])⟩] ∧
    call_tool defaultSettings trivialServiceEnv "run_evaluation"
        [("evaluator_id", .str "e"), ("request", .str "hi"), ("response", .str "\t")] =
      [⟨"text", pyDumps (.obj [("error",
        .str "Invalid arguments for run_evaluation: response: Field cannot be empty")])⟩] :=
  ⟨((empty_eval_strings_rejected defaultSettings trivialServiceEnv "e" "  " "ok").1
      (by decide)).1,
   ((empty_eval_strings_rejected defaultSettings trivialServiceEnv "e" "hi" "\t").2
      (by decide) (by decide)).1⟩

/-- Claim C8: the coding-policy handler rewrites its call into an
`EvaluationRequest` whose evaluator id is the configured coding-policy
evaluator id, whose request is the configured fixed request text, whose
contexts are the policy documents and whose response is the code under
test, and then runs a standard evaluation on exactly that request. -/
theorem coding_policy_request_rewrite (st : Settings) (env : ServiceEnv)
    (params : CodingPolicyAdherenceEvaluationRequest)
    (hreq : stripIsEmpty st.coding_policy_evaluator_request = false)
    (hcode : stripIsEmpty params.code = false) :
    mkEvaluationRequest st.coding_policy_evaluator_id st.coding_policy_evaluator_request
        params.code (some params.policy_documents) none =
      .ok ⟨st.coding_policy_evaluator_request, params.code, some params.policy_documents,
        none, st.coding_policy_evaluator_id⟩ ∧
    handle_coding_style_evaluation st env params =
      env.run_evaluation ⟨st.coding_policy_evaluator_request, params.code,
        some params.policy_documents, none, st.coding_policy_evaluator_id⟩ := by
  have hmk : mkEvaluationRequest st.coding_policy_evaluator_id
      st.coding_policy_evaluator_request params.code (some params.policy_documents) none =
      .ok ⟨st.coding_policy_evaluator_request, params.code, some params.policy_documents,
        none, st.coding_policy_evaluator_id⟩ := by
    simp [mkEvaluationRequest, hreq, hcode]
  exact ⟨hmk, by simp [handle_coding_style_evaluation, hmk]⟩

theorem coding_policy_request_rewrite_witness :
    handle_coding_style_evaluation defaultSettings trivialServiceEnv ⟨["doc"], "x=1"⟩ =
      trivialServiceEnv.run_evaluation
        ⟨"Is the response written according to the coding policy?", "x=1", some ["doc"],
          none, "4613f248-b60e-403a-bcdc-157d1c44194a"⟩ :=
  (coding_policy_request_rewrite defaultSettings trivialServiceEnv ⟨["doc"], "x=1"⟩
    (by decide) (by decide)).2
